import Mathlib

/-!
Verification of the commandee-api authentication gate, item route handlers,
YAML body parsing and OpenAPI document serving, as a shallow embedding of
the TypeScript source (src/unnamed/part_000 and src/src/routes/item.ts).
-/

namespace Commandee

/-- The payload of a FastifyError thrown by `request.jwtVerify()`: an error
code (such as FST_JWT_AUTHORIZATION_TOKEN_EXPIRED) and a message. The
`authenticate` gate sends the whole error object as the response body. -/
structure ErrorPayload where
  code : String
  message : String
deriving DecidableEq, Repr

/-- Outcome of `request.jwtVerify()` inside the `authenticate` decorator:
either the token verifies and carries the subject user id, or it rejects
with a FastifyError (expiration, malformed token, wrong signature, missing
token are all error codes). -/
inductive JwtVerifyResult where
  | ok (userId : String)
  | err (e : ErrorPayload)
deriving DecidableEq, Repr

/-- A reply the gate has already sent: an HTTP status and the error payload. -/
structure SentReply where
  status : Nat
  payload : ErrorPayload
deriving DecidableEq, Repr

/-- The `authenticate` decorator (part_000 lines 69-86): awaits
`request.jwtVerify()`; on failure it switches on the error code, sending 403
for FST_JWT_AUTHORIZATION_TOKEN_EXPIRED and 401 otherwise, and in every case
it returns normally (the catch swallows the exception), modelled as the
function being `Except.ok` on all inputs: `.ok none` means verification
succeeded and no reply was sent, `.ok (some r)` means the error reply `r`
was sent and control returned to the awaiting caller. -/
def authenticate : JwtVerifyResult → Except ErrorPayload (Option SentReply)
  | .ok _ => .ok none
  | .err e =>
      if e.code = "FST_JWT_AUTHORIZATION_TOKEN_EXPIRED" then
        .ok (some { status := 403, payload := e })
      else
        .ok (some { status := 401, payload := e })

/-- A route handler body awaiting the gate: `await fastify.authenticate(...)`
followed by the handler body. Because `authenticate` never throws, the body
value is always reached, paired with whatever reply the gate may already
have sent. -/
def runWithGate (v : JwtVerifyResult) (body : Nat) :
    Except ErrorPayload (Option SentReply × Nat) :=
  match authenticate v with
  | .ok r => .ok (r, body)
  | .error e => .error e

end Commandee

namespace Commandee

/-- Claim C1: when token verification fails, the `authenticate` gate sends
status 403 with the error payload (which carries the expiration error code)
if the token is expired, and status 401 for any other verification failure;
a reply is always sent on failure and its status is one of exactly these
two. -/
theorem authenticate_failure_classification (e : ErrorPayload) :
    ∃ r : SentReply, authenticate (.err e) = .ok (some r) ∧
      r.payload = e ∧
      (e.code = "FST_JWT_AUTHORIZATION_TOKEN_EXPIRED" → r.status = 403) ∧
      (e.code ≠ "FST_JWT_AUTHORIZATION_TOKEN_EXPIRED" → r.status = 401) ∧
      (r.status = 403 ∨ r.status = 401) := by
  by_cases h : e.code = "FST_JWT_AUTHORIZATION_TOKEN_EXPIRED"
  · exact ⟨{ status := 403, payload := e }, by simp [authenticate, h],
      rfl, fun _ => rfl, fun hc => absurd h hc, Or.inl rfl⟩
  · exact ⟨{ status := 401, payload := e }, by simp [authenticate, h],
      rfl, fun hc => absurd hc h, fun _ => rfl, Or.inr rfl⟩

/-- Witness for C1: at the concrete expired-token error, the classification
theorem applies and yields the 403 outcome. -/
theorem authenticate_failure_classification_witness :
    ∃ r : SentReply,
      authenticate (.err ⟨"FST_JWT_AUTHORIZATION_TOKEN_EXPIRED", "expired"⟩) =
        .ok (some r) ∧
      r.payload = ⟨"FST_JWT_AUTHORIZATION_TOKEN_EXPIRED", "expired"⟩ ∧
      ("FST_JWT_AUTHORIZATION_TOKEN_EXPIRED" = "FST_JWT_AUTHORIZATION_TOKEN_EXPIRED" → r.status = 403) ∧
      ("FST_JWT_AUTHORIZATION_TOKEN_EXPIRED" ≠ "FST_JWT_AUTHORIZATION_TOKEN_EXPIRED" → r.status = 401) ∧
      (r.status = 403 ∨ r.status = 401) :=
  authenticate_failure_classification
    ⟨"FST_JWT_AUTHORIZATION_TOKEN_EXPIRED", "expired"⟩

/-- Claim C10: on every verification failure the `authenticate` decorator
sends the 401 or 403 error reply and returns normally rather than throwing
(`Except.ok`, never `Except.error`), so control returns to the awaiting
route handler and the handler body still runs. -/
theorem authenticate_never_throws (e : ErrorPayload) (body : Nat) :
    ∃ r : SentReply,
      authenticate (.err e) = .ok (some r) ∧
      (r.status = 401 ∨ r.status = 403) ∧
      runWithGate (.err e) body = .ok (some r, body) := by
  unfold runWithGate
  by_cases h : e.code = "FST_JWT_AUTHORIZATION_TOKEN_EXPIRED"
  · exact ⟨{ status := 403, payload := e }, by simp [authenticate, h],
      Or.inr rfl, by simp [authenticate, h]⟩
  · exact ⟨{ status := 401, payload := e }, by simp [authenticate, h],
      Or.inl rfl, by simp [authenticate, h]⟩

end Commandee

namespace Commandee

/-- A restaurant record; only its id is read by the routes in scope. -/
structure Restaurant where
  id : String
deriving DecidableEq, Repr

/-- A full User record as returned by `userControl.get`: an id and an
optional (nullable) associated restaurant. -/
structure User where
  id : String
  restaurant : Option Restaurant
deriving DecidableEq, Repr

/-- The decoded JWT payload: it embeds the subject user's id. -/
structure TokenPayload where
  id : String
deriving DecidableEq, Repr

/-- The `formatUser` option of the jwt plugin (part_000 line 66):
`(user) => () => userControl.get(user.id)` - the decoded payload is replaced
by a deferred thunk that, when invoked, looks the full User record up by the
token-embedded user id. `lookup` stands for `userControl.get`. -/
def formatUser (lookup : String → User) (payload : TokenPayload) :
    Unit → User :=
  fun _ => lookup payload.id

/-- Outcome of the restaurant-extended gate as seen by a route handler:
either an error reply was already sent, or the handler proceeds with the
resolved User record attached as `request.user`. -/
inductive GateOutcome where
  | replied (r : SentReply)
  | proceed (u : User)
deriving DecidableEq, Repr

/-- Modelled from the spec: `authenticateWithRestaurant` is referenced by
every handler in src/src/routes/item.ts but its definition is not under
src/. Per the spec it is composed on top of the base `authenticate` gate,
resolves the token subject to a full User record (forcing the deferred
`formatUser` thunk before any handler reads `request.user`), and
additionally requires `request.user.restaurant` to be non-null, failing
with Forbidden (403) and a descriptive message when the user has no
associated restaurant. -/
def authenticateWithRestaurant (lookup : String → User) :
    JwtVerifyResult → GateOutcome
  | .err e =>
      match authenticate (.err e) with
      | .ok (some r) => .replied r
      | _ => .replied { status := 401, payload := e }
  | .ok uid =>
      let u := formatUser lookup ⟨uid⟩ ()
      match u.restaurant with
      | none => .replied
          { status := 403
            payload := ⟨"FST_FORBIDDEN", "User has no associated restaurant"⟩ }
      | some _ => .proceed u

/-- Persistence operations a handler can invoke, recorded as a call trace. -/
inductive PersistCall where
  | getAllFrom (restaurantId : String)
  | get (itemId : String)
  | create (itemId : String)
  | del (itemId : String)
deriving DecidableEq, Repr

/-- A route handler gated by `authenticateWithRestaurant`: when the gate
replies, the handler body (and hence its persistence calls) is skipped; when
the gate proceeds, the body runs with the resolved user and produces its
persistence call trace. -/
def gatedCalls (lookup : String → User) (v : JwtVerifyResult)
    (body : User → List PersistCall) : List PersistCall :=
  match authenticateWithRestaurant lookup v with
  | .replied _ => []
  | .proceed u => body u

end Commandee

namespace Commandee

/-- Claim C3: for every request that passes base token verification but
whose resolved user has no associated restaurant, the
`authenticateWithRestaurant` gate replies with status 403 and a non-empty
descriptive message, and no persistence operation of any gated handler body
is invoked. -/
theorem authenticateWithRestaurant_no_restaurant_403
    (lookup : String → User) (uid : String)
    (h : (lookup uid).restaurant = none) :
    ∃ r : SentReply,
      authenticateWithRestaurant lookup (.ok uid) = .replied r ∧
      r.status = 403 ∧ r.payload.message ≠ "" ∧
      ∀ body : User → List PersistCall,
        gatedCalls lookup (.ok uid) body = [] := by
  refine ⟨{ status := 403
            payload := ⟨"FST_FORBIDDEN", "User has no associated restaurant"⟩ },
    ?_, rfl, by simp, ?_⟩
  · simp [authenticateWithRestaurant, formatUser, h]
  · intro body
    simp [gatedCalls, authenticateWithRestaurant, formatUser, h]

/-- Witness for C3: a concrete user table where the subject has no
restaurant; the gate replies 403 and the trace is empty. -/
theorem authenticateWithRestaurant_no_restaurant_403_witness :
    ((fun _ : String => User.mk "u1" none) "u1").restaurant = none ∧
    ∃ r : SentReply,
      authenticateWithRestaurant (fun _ => User.mk "u1" none) (.ok "u1") =
        .replied r ∧
      r.status = 403 ∧ r.payload.message ≠ "" ∧
      ∀ body : User → List PersistCall,
        gatedCalls (fun _ => User.mk "u1" none) (.ok "u1") body = [] :=
  ⟨rfl, authenticateWithRestaurant_no_restaurant_403
    (fun _ => User.mk "u1" none) "u1" rfl⟩

/-- Claim C9: whenever a gated handler runs (the gate proceeds), the value
attached as `request.user` is exactly the full User record obtained by
forcing the `formatUser` thunk, i.e. the `userControl.get` lookup keyed by
the token-embedded user id - so `request.user.restaurant` denotes the
resolved record's restaurant field, not a property of an unresolved
deferred value. -/
theorem gate_resolves_user (lookup : String → User) (uid : String)
    (u : User)
    (h : authenticateWithRestaurant lookup (.ok uid) = .proceed u) :
    u = formatUser lookup ⟨uid⟩ () ∧ u = lookup uid ∧
    u.restaurant = (lookup uid).restaurant := by
  have hu : u = lookup uid := by
    by_cases hr : (lookup uid).restaurant = none
    · simp [authenticateWithRestaurant, formatUser, hr] at h
    · obtain ⟨rest, hrest⟩ := Option.ne_none_iff_exists'.mp hr
      simp [authenticateWithRestaurant, formatUser, hrest] at h
      exact h.symm
  exact ⟨hu, hu, by rw [hu]⟩

/-- Witness for C9: with a concrete lookup whose user owns restaurant r1,
the gate proceeds with exactly the resolved record. -/
theorem gate_resolves_user_witness :
    User.mk "u1" (some ⟨"r1"⟩) =
      formatUser (fun _ => User.mk "u1" (some ⟨"r1"⟩)) ⟨"u1"⟩ () ∧
    User.mk "u1" (some ⟨"r1"⟩) =
      (fun _ : String => User.mk "u1" (some ⟨"r1"⟩)) "u1" ∧
    (User.mk "u1" (some ⟨"r1"⟩)).restaurant =
      ((fun _ : String => User.mk "u1" (some ⟨"r1"⟩)) "u1").restaurant :=
  gate_resolves_user (fun _ => User.mk "u1" (some ⟨"r1"⟩)) "u1"
    (User.mk "u1" (some ⟨"r1"⟩)) rfl

end Commandee

namespace Commandee

/-- An Item record as exposed by the item routes: public id, name, price in
cents, optional description, and the id of the owning restaurant. -/
structure Item where
  id : String
  name : String
  price : Nat
  description : Option String
  restaurantId : String
deriving DecidableEq, Repr

/-- Modelled from the spec: the persistence collaborator behind
`itemControl` is not under src/; the spec assumes it exposes
create/get/list/delete operations keyed by opaque public IDs. Modelled as a
list of items keyed by `Item.id`. -/
structure ItemStore where
  items : List Item
deriving DecidableEq, Repr

/-- Modelled from the spec: `itemControl.get(itemId)` - look an item up by
its public id; `none` models the not-found rejection of an unmatched id. -/
def ItemStore.get (s : ItemStore) (itemId : String) : Option Item :=
  s.items.find? (fun i => i.id == itemId)

/-- Modelled from the spec: `itemControl.del(itemId)` - remove the item with
the given public id from the store. -/
def ItemStore.del (s : ItemStore) (itemId : String) : ItemStore :=
  ⟨s.items.filter (fun i => i.id != itemId)⟩

/-- Modelled from the spec: `itemControl.create(fields) -> id` - persist a
new item under a freshly assigned opaque public id (the id assignment
itself is external, so the fresh id is a parameter) and return that id. -/
def ItemStore.create (s : ItemStore) (freshId : String) (name : String)
    (price : Nat) (descr : Option String) (restaurantId : String) :
    ItemStore × String :=
  (⟨{ id := freshId, name := name, price := price, description := descr,
      restaurantId := restaurantId } :: s.items⟩, freshId)

/-- What an item handler produces after the gate proceeded: a sent item, a
sent plain string message, a thrown APIError (message and status), or a
propagated not-found failure from the persistence collaborator. -/
inductive ItemOutcome where
  | sentItem (i : Item)
  | sentMessage (m : String)
  | apiError (message : String) (status : Nat)
  | notFound
deriving DecidableEq, Repr

/-- The GET /:id handler body (item.ts lines 69-81), after
`authenticateWithRestaurant` proceeded with a user whose restaurant id is
`rid`: fetch the item, throw APIError("You don't have access to this item",
403) when its owning restaurant differs from the caller's, else send the
item. The persistence calls made are recorded alongside. -/
def getItemHandler (s : ItemStore) (rid : String) (itemId : String) :
    ItemOutcome × List PersistCall :=
  match s.get itemId with
  | none => (.notFound, [.get itemId])
  | some item =>
      if item.restaurantId ≠ rid then
        (.apiError "You don't have access to this item" 403, [.get itemId])
      else
        (.sentItem item, [.get itemId])

/-- The DELETE /:id handler body (item.ts lines 145-158): fetch the item,
throw the same APIError on ownership mismatch (before `itemControl.del` is
reached), else call `itemControl.del` and send the plain confirmation
string. Returns the outcome, the persistence call trace and the resulting
store state. -/
def delItemHandler (s : ItemStore) (rid : String) (itemId : String) :
    ItemOutcome × List PersistCall × ItemStore :=
  match s.get itemId with
  | none => (.notFound, [.get itemId], s)
  | some item =>
      if item.restaurantId ≠ rid then
        (.apiError "You don't have access to this item" 403, [.get itemId], s)
      else
        (.sentMessage "Item deleted successfully",
         [.get itemId, .del itemId], s.del itemId)

/-- The POST / handler body (item.ts lines 113-124): call
`itemControl.create` with the validated body fields and the caller's
restaurant id, then respond with `itemControl.get(itemId)` on the returned
id - the response is the item fetched back from persistence, not an echo of
the input. -/
def postItemHandler (s : ItemStore) (rid : String) (name : String)
    (price : Nat) (descr : Option String) (freshId : String) :
    Option Item × String × ItemStore :=
  let created := s.create freshId name price descr rid
  let itemId := created.2
  (created.1.get itemId, itemId, created.1)

end Commandee

namespace Commandee

/-- Claim C2: when the fetched item's owning restaurant differs from the
caller's, GET /:id and DELETE /:id both raise the typed APIError with
status 403; on that branch DELETE never invokes `itemControl.del` and the
store is unchanged; on the ownership-success branch DELETE calls
`itemControl.del` and sends the plain confirmation message. -/
theorem item_ownership_check (s : ItemStore) (rid itemId : String)
    (item : Item) (h : s.get itemId = some item) :
    (item.restaurantId ≠ rid →
      getItemHandler s rid itemId =
        (.apiError "You don't have access to this item" 403, [.get itemId]) ∧
      delItemHandler s rid itemId =
        (.apiError "You don't have access to this item" 403,
         [.get itemId], s) ∧
      PersistCall.del itemId ∉ (delItemHandler s rid itemId).2.1 ∧
      (delItemHandler s rid itemId).2.2 = s) ∧
    (item.restaurantId = rid →
      delItemHandler s rid itemId =
        (.sentMessage "Item deleted successfully",
         [.get itemId, .del itemId], s.del itemId)) := by
  constructor
  · intro hne
    refine ⟨?_, ?_, ?_, ?_⟩
    · simp [getItemHandler, h, hne]
    · simp [delItemHandler, h, hne]
    · simp [delItemHandler, h, hne]
    · simp [delItemHandler, h, hne]
  · intro heq
    simp [delItemHandler, h, heq]

/-- Witness for C2: a one-item store owned by restaurant r2, accessed by a
caller from r1 (mismatch branch) - the theorem applies with both
implications dischargeable at concrete inputs (the mismatch one here). -/
theorem item_ownership_check_witness :
    (ItemStore.mk [⟨"iiiiiiiiiiiiiiii", "Soup", 500, none, "r2"⟩]).get
        "iiiiiiiiiiiiiiii" =
      some ⟨"iiiiiiiiiiiiiiii", "Soup", 500, none, "r2"⟩ ∧
    getItemHandler (ItemStore.mk [⟨"iiiiiiiiiiiiiiii", "Soup", 500, none, "r2"⟩])
        "r1" "iiiiiiiiiiiiiiii" =
      (.apiError "You don't have access to this item" 403,
       [.get "iiiiiiiiiiiiiiii"]) := by
  have h := item_ownership_check
    (ItemStore.mk [⟨"iiiiiiiiiiiiiiii", "Soup", 500, none, "r2"⟩])
    "r1" "iiiiiiiiiiiiiiii" ⟨"iiiiiiiiiiiiiiii", "Soup", 500, none, "r2"⟩
    (by decide)
  exact ⟨by decide, (h.1 (by decide)).1⟩

/-- Claim C4: round-trip - POST / with name n, price p and description
omitted yields a response that is exactly the created item as fetched back
from the post-create store by the returned id (not an echo of the input),
and a subsequent GET /:id on that id, by a caller of the same restaurant,
sends an item with name n, price p and description absent. -/
theorem post_get_roundtrip (s : ItemStore) (rid n : String) (p : Nat)
    (freshId : String) :
    (postItemHandler s rid n p none freshId).1 =
      some ⟨freshId, n, p, none, rid⟩ ∧
    (postItemHandler s rid n p none freshId).1 =
      (postItemHandler s rid n p none freshId).2.2.get
        (postItemHandler s rid n p none freshId).2.1 ∧
    getItemHandler (postItemHandler s rid n p none freshId).2.2 rid
        (postItemHandler s rid n p none freshId).2.1 =
      (.sentItem ⟨freshId, n, p, none, rid⟩, [.get freshId]) := by
  refine ⟨?_, rfl, ?_⟩
  · simp [postItemHandler, ItemStore.create, ItemStore.get]
  · simp [getItemHandler, postItemHandler, ItemStore.create, ItemStore.get]

end Commandee

namespace Commandee

/-- A JSON field value in a request body: a string, an integer, or any
other JSON value (number with fraction, boolean, object, array, null). -/
inductive FieldValue where
  | str (s : String)
  | int (n : Int)
  | other
deriving DecidableEq, Repr

/-- Look a field up by key in a request body object. -/
def lookupField (body : List (String × FieldValue)) (k : String) :
    Option FieldValue :=
  (body.find? (fun kv => kv.1 == k)).map (fun kv => kv.2)

/-- The `name` property of the POST / body schema (item.ts lines 90-95):
required string with minLength 3 and maxLength 255. -/
def validName : Option FieldValue → Bool
  | some (.str s) => decide (3 ≤ s.length) && decide (s.length ≤ 255)
  | _ => false

/-- The `price` property of the POST / body schema (item.ts lines 96-101):
required integer with minimum 0 (the declared default 0 never applies,
since `price` is in `required`). -/
def validPrice : Option FieldValue → Bool
  | some (.int n) => decide (0 ≤ n)
  | _ => false

/-- The `description` property of the POST / body schema (item.ts lines
102-106): optional string with maxLength 255. -/
def validDescr : Option FieldValue → Bool
  | some (.str s) => decide (s.length ≤ 255)
  | some _ => false
  | none => true

/-- The keys declared in `properties` of the POST / body schema; these are
the only keys the schema recognizes. -/
def recognizedKey (k : String) : Bool :=
  k == "name" || k == "price" || k == "description"

/-- Fastify's AJV preprocessing of a body against the POST / schema
(item.ts lines 87-110). The server creates AJV only with
`customOptions: { keywords: ["media"] }` (part_000 lines 30-37), which is
merged over Fastify's baseline options `removeAdditional: true` and
`useDefaults: true` without overriding them, so under
`additionalProperties: false` every unrecognized key is silently removed
rather than rejected, and an omitted `price` is filled in from its declared
`default: 0`, which then satisfies `required`. -/
def ajvPrepare (body : List (String × FieldValue)) :
    List (String × FieldValue) :=
  let stripped := body.filter (fun kv => recognizedKey kv.1)
  if lookupField stripped "price" = none then
    stripped ++ [("price", FieldValue.int 0)]
  else stripped

/-- Validation of a prepared body against the POST / schema (item.ts lines
87-110): `required: [name, price]` with the declared types and bounds,
optional description; the `additionalProperties` constraint is vacuous on a
prepared body because `removeAdditional: true` already stripped every
unrecognized key. -/
def validatePostBody (body : List (String × FieldValue)) : Bool :=
  validName (lookupField body "name") &&
  validPrice (lookupField body "price") &&
  validDescr (lookupField body "description") &&
  body.all (fun kv => recognizedKey kv.1)

/-- Outcome of the full POST / route: the framework's schema layer rejects
invalid bodies with a validation error before the handler runs, otherwise
the handler body executes. -/
inductive PostRouteOutcome where
  | validationError (status : Nat)
  | handled (resp : Option Item)
deriving DecidableEq, Repr

/-- The POST / route: AJV preprocessing (key stripping and defaults) and
schema validation run first; only when validation passes does the handler
(and its persistence calls, item.ts lines 113-124) run, on the prepared
body. -/
def postRoute (s : ItemStore) (rid : String)
    (body : List (String × FieldValue)) (freshId : String) :
    PostRouteOutcome × List PersistCall × ItemStore :=
  let prepared := ajvPrepare body
  if validatePostBody prepared then
    let n := match lookupField prepared "name" with
      | some (.str s) => s
      | _ => ""
    let p := match lookupField prepared "price" with
      | some (.int k) => k.toNat
      | _ => 0
    let d := match lookupField prepared "description" with
      | some (.str s) => some s
      | _ => none
    let r := postItemHandler s rid n p d freshId
    (.handled r.1, [.create freshId, .get freshId], r.2.2)
  else
    (.validationError 400, [], s)

end Commandee

namespace Commandee

/-- Claim C5, evaluated at the failing input: a POST / body carrying the
unrecognized extra field `color` is not rejected with a 400 validation
error - AJV's `removeAdditional: true` (Fastify's baseline, not overridden
by the customOptions merge at part_000 lines 30-37) strips the key, the
stripped body passes validation, and the handler runs and creates the item;
likewise a body omitting `price` is accepted with the declared default 0
filled in by `useDefaults: true` rather than failing `required`. -/
theorem postRoute_extra_field_stripped :
    ajvPrepare
        [("name", FieldValue.str "Soup"), ("price", FieldValue.int 500),
         ("color", FieldValue.str "red")] =
      [("name", FieldValue.str "Soup"), ("price", FieldValue.int 500)] ∧
    validatePostBody (ajvPrepare
        [("name", FieldValue.str "Soup"), ("price", FieldValue.int 500),
         ("color", FieldValue.str "red")]) = true ∧
    postRoute (ItemStore.mk []) "r1"
        [("name", FieldValue.str "Soup"), ("price", FieldValue.int 500),
         ("color", FieldValue.str "red")] "iiiiiiiiiiiiiiii" =
      (.handled (some ⟨"iiiiiiiiiiiiiiii", "Soup", 500, none, "r1"⟩),
       [.create "iiiiiiiiiiiiiiii", .get "iiiiiiiiiiiiiiii"],
       ItemStore.mk [⟨"iiiiiiiiiiiiiiii", "Soup", 500, none, "r1"⟩]) ∧
    postRoute (ItemStore.mk []) "r1"
        [("name", FieldValue.str "Soup")] "jjjjjjjjjjjjjjjj" =
      (.handled (some ⟨"jjjjjjjjjjjjjjjj", "Soup", 0, none, "r1"⟩),
       [.create "jjjjjjjjjjjjjjjj", .get "jjjjjjjjjjjjjjjj"],
       ItemStore.mk [⟨"jjjjjjjjjjjjjjjj", "Soup", 0, none, "r1"⟩]) := by
  decide

end Commandee

namespace Commandee

/-- What `request.type([...])` (the accepts collaborator) can return in
JavaScript: `false` when nothing matches (also used when the header is
absent and no listed type applies), a single best-matching type string, or
an array of equally-ranked matches. -/
inductive NegotiationResult where
  | noMatch
  | single (t : String)
  | multiple (ts : List String)
deriving DecidableEq, Repr

/-- The supported-type list passed to `request.type` by the GET /openapi
handler (part_000 lines 182-187). -/
def openapiSupported : List String :=
  ["application/json", "application/yaml", "text/yaml", "text/yml"]

/-- The selection logic of the GET /openapi handler (part_000 lines
181-188): `request.type([...]) || "application/json"` followed by
`Array.isArray(validType) ? validType[0] : validType`; `none` models the
JavaScript `undefined` that `[0]` yields on an empty array. -/
def openapiSelect : NegotiationResult → Option String
  | .noMatch => some "application/json"
  | .single t => some t
  | .multiple ts => ts.head?

/-- A document-endpoint response: a static file served from disk
(`reply.sendFile`) or an in-memory string with a content type
(`reply.type(...).send(...)`). -/
inductive DocResponse where
  | file (p : String)
  | inline (contentType : String) (body : String)
deriving DecidableEq, Repr

/-- The GET /openapi handler (part_000 lines 180-203): when the selected
type is application/json, serve the JSON artifact (static file in
production, the module-level cached string `openAPIJson` in development);
otherwise serve the YAML artifact the same way. -/
def openapiHandler (prod : Bool) (oJson oYaml : String)
    (neg : NegotiationResult) : DocResponse :=
  if openapiSelect neg = some "application/json" then
    if prod then .file "/public/openapi.json"
    else .inline "application/json" oJson
  else
    if prod then .file "/public/openapi.yaml"
    else .inline "text/yaml" oYaml

/-- The GET /openapi/json handler (part_000 lines 206-225): always serves
the JSON artifact, bypassing negotiation. -/
def openapiJsonHandler (prod : Bool) (oJson : String) : DocResponse :=
  if prod then .file "/public/openapi.json"
  else .inline "application/json" oJson

/-- An error object passed to `done(err, undefined)` by the YAML content
type parser, carrying the statusCode the parser set on it. -/
structure ParsedBodyError where
  message : String
  statusCode : Option Nat
deriving DecidableEq, Repr

/-- The YAML content type parser (part_000 lines 90-101): try
`YAML.load(body)` and pass the value through on success; on a parse failure
set `err.statusCode = 400` and fail with that error. `yamlLoad` stands for
the external `YAML.load`. -/
def yamlContentTypeParser {α : Type} (yamlLoad : String → Except String α)
    (body : String) : Except ParsedBodyError α :=
  match yamlLoad body with
  | .ok v => .ok v
  | .error m => .error { message := m, statusCode := some 400 }

end Commandee

namespace Commandee

/-- Claim C6: the GET /openapi representation is selected from the
supported list [application/json, application/yaml, text/yaml, text/yml];
a no-match (or absent-header) negotiation yields application/json, a single
match is used as-is, and of a list of equally-ranked matches the first
entry is used. -/
theorem openapi_negotiation :
    openapiSupported =
      ["application/json", "application/yaml", "text/yaml", "text/yml"] ∧
    openapiSelect .noMatch = some "application/json" ∧
    (∀ t, openapiSelect (.single t) = some t) ∧
    (∀ t ts, openapiSelect (.multiple (t :: ts)) = some t) :=
  ⟨rfl, rfl, fun _ => rfl, fun _ _ => rfl⟩

/-- Claim C8: whenever GET /openapi negotiates application/json, its
response is identical to the GET /openapi/json response - in development
mode both are the same module-level cached JSON string, and in production
mode both serve the same persisted file. -/
theorem openapi_json_equivalence (prod : Bool) (oJson oYaml : String)
    (neg : NegotiationResult)
    (h : openapiSelect neg = some "application/json") :
    openapiHandler prod oJson oYaml neg = openapiJsonHandler prod oJson ∧
    (prod = false →
      openapiHandler prod oJson oYaml neg =
        .inline "application/json" oJson) ∧
    (prod = true →
      openapiHandler prod oJson oYaml neg = .file "/public/openapi.json") := by
  refine ⟨?_, ?_, ?_⟩
  · simp [openapiHandler, openapiJsonHandler, h]
  · intro hp; simp [openapiHandler, h, hp]
  · intro hp; simp [openapiHandler, h, hp]

/-- Witness for C8: a no-match negotiation in development mode; both
endpoints serve the cached JSON string. -/
theorem openapi_json_equivalence_witness :
    openapiHandler false "doc" "ydoc" .noMatch =
      openapiJsonHandler false "doc" ∧
    (false = false →
      openapiHandler false "doc" "ydoc" .noMatch =
        .inline "application/json" "doc") ∧
    (false = true →
      openapiHandler false "doc" "ydoc" .noMatch =
        .file "/public/openapi.json") :=
  openapi_json_equivalence false "doc" "ydoc" .noMatch rfl

/-- Claim C7: a YAML body whose parse fails is surfaced as an error with
statusCode 400, never 500; a YAML body that parses is passed through as
exactly the parsed value, so it yields the same in-memory structure as an
equivalent JSON body (one whose JSON parse produces that same value). -/
theorem yaml_parser_classification {α : Type}
    (yamlLoad jsonParse : String → Except String α) (body jsonBody : String) :
    (∀ m, yamlLoad body = .error m →
      yamlContentTypeParser yamlLoad body =
        .error { message := m, statusCode := some 400 } ∧
      ∀ e, yamlContentTypeParser yamlLoad body = .error e →
        e.statusCode = some 400 ∧ e.statusCode ≠ some 500) ∧
    (∀ v, yamlLoad body = .ok v → jsonParse jsonBody = .ok v →
      yamlContentTypeParser yamlLoad body = .ok v ∧
      ∃ w, jsonParse jsonBody = .ok w ∧
        yamlContentTypeParser yamlLoad body = .ok w) := by
  constructor
  · intro m hm
    refine ⟨by simp [yamlContentTypeParser, hm], ?_⟩
    intro e he
    simp [yamlContentTypeParser, hm] at he
    simp [← he]
  · intro v hv hj
    exact ⟨by simp [yamlContentTypeParser, hv],
      v, hj, by simp [yamlContentTypeParser, hv]⟩

/-- Witness for C7: a concrete always-failing load on the failure side; the
wrapped parser reports statusCode 400. -/
theorem yaml_parser_classification_witness :
    (fun _ : String => (.error "bad indent" : Except String Nat)) "k: [" =
      .error "bad indent" ∧
    yamlContentTypeParser
        (fun _ : String => (.error "bad indent" : Except String Nat))
        "k: [" =
      .error { message := "bad indent", statusCode := some 400 } :=
  ⟨rfl, ((yaml_parser_classification
      (fun _ => .error "bad indent") (fun _ => .error "bad indent")
      "k: [" "").1 "bad indent" rfl).1⟩

end Commandee
